import Mathlib

/-!
Verification of the derivative-parsing core (`src/derpgen/pwd/pwd.py`) and the
grammar front-end (`src/derpgen/grammar/parse/parser.py`) of the vgf-parser
repository.

The Python grammar values form graphs that may contain cycles; the fixed-point
combinator (`fix`) and the memoizer evaluate the recursive analyses over such
graphs.  On acyclic grammar values — the fragment representable by an inductive
type — the iteration protocol of §4.C stabilises after one pass and coincides
with plain structural recursion, so the operations below are the structural
recursions obtained by inlining each `match`/`match_pred` table of `pwd.py`.
-/

namespace DerpGen

/-- Modelled from the spec (§3.2): `tree.py` is not under `src/`.  A parse tree
is `Leaf(v)`, `Branch(l, r)` or `Empty`. -/
inductive Tree (V : Type) where
  | Leaf : V → Tree V
  | Branch : Tree V → Tree V → Tree V
  | Empty : Tree V
deriving DecidableEq, Repr

/-- Modelled from the spec (§3.1): `grammar.py` is not under `src/`.  A grammar
term is one of exactly seven variants; `Red` carries a reduction function on
parse trees. -/
inductive Grammar (V : Type) where
  | Nil : Grammar V
  | Eps (ts : List (Tree V)) : Grammar V
  | Tok (t : V) : Grammar V
  | Rep (g : Grammar V) : Grammar V
  | Alt (g1 g2 : Grammar V) : Grammar V
  | Seq (g1 g2 : Grammar V) : Grammar V
  | Red (g : Grammar V) (f : Tree V → Tree V) : Grammar V

variable {V : Type}

/-- Modelled from the spec (§3.1): the smart constructors of `grammar.py` are
not under `src/`.  The spec says they MAY apply trivial simplifications "but
are NOT required to; the `compact` pass guarantees further simplification", so
they are modelled as the plain constructors. -/
def nil : Grammar V := Grammar.Nil

/-- Modelled from the spec (§3.1): smart constructor for `Eps`. -/
def eps (ts : List (Tree V)) : Grammar V := Grammar.Eps ts

/-- Modelled from the spec (§3.1): smart constructor for `Tok`. -/
def tok (t : V) : Grammar V := Grammar.Tok t

/-- Modelled from the spec (§3.1): smart constructor for `Rep`. -/
def rep (g : Grammar V) : Grammar V := Grammar.Rep g

/-- Modelled from the spec (§3.1): smart constructor for `Alt`. -/
def alt (g1 g2 : Grammar V) : Grammar V := Grammar.Alt g1 g2

/-- Modelled from the spec (§3.1): smart constructor for `Seq`. -/
def seq (g1 g2 : Grammar V) : Grammar V := Grammar.Seq g1 g2

/-- Modelled from the spec (§3.1): smart constructor for `Red`. -/
def red (g : Grammar V) (f : Tree V → Tree V) : Grammar V := Grammar.Red g f

/-- `is_empty` from `pwd.py` (lines 18–26): decide whether a grammar
recognizes no strings at all. -/
def is_empty : Grammar V → Bool
  | .Nil => true
  | .Eps _ => false
  | .Tok _ => false
  | .Rep _ => false
  | .Alt g1 g2 => is_empty g1 && is_empty g2
  | .Seq g1 g2 => is_empty g1 || is_empty g2
  | .Red g _ => is_empty g

/-- `is_nullable` from `pwd.py` (lines 29–37): decide whether a grammar
recognizes the empty string.  The `Rep` clause is the source's
`is_nullable(g) or is_empty(g)`. -/
def is_nullable : Grammar V → Bool
  | .Nil => false
  | .Eps _ => true
  | .Tok _ => false
  | .Rep g => is_nullable g || is_empty g
  | .Alt g1 g2 => is_nullable g1 || is_nullable g2
  | .Seq g1 g2 => is_nullable g1 && is_nullable g2
  | .Red g _ => is_nullable g

/-- `parse_null` from `pwd.py` (lines 40–48): the parse trees a grammar
assigns to the empty string.  The `Seq` clause is the Python comprehension
`[Branch(t1, t2) for t1 in parse_null(g1) for t2 in parse_null(g2)]`. -/
def parse_null : Grammar V → List (Tree V)
  | .Nil => []
  | .Eps ts => ts
  | .Tok _ => []
  | .Rep _ => [Tree.Empty]
  | .Alt g1 g2 => parse_null g1 ++ parse_null g2
  | .Seq g1 g2 =>
      (parse_null g1).flatMap (fun t1 => (parse_null g2).map (fun t2 => Tree.Branch t1 t2))
  | .Red g f => (parse_null g).map f

/-- `derive` from `pwd.py` (lines 59–67).  The `Seq` clause inlines
`derive_seq` (lines 51–56); `delay`/`force` of the missing `lazy.py` are pure
value sharing and are a `let`-binding here. -/
def derive [DecidableEq V] : Grammar V → V → Grammar V
  | .Nil, _ => nil
  | .Eps _, _ => nil
  | .Tok t, c => if c = t then eps [Tree.Leaf c] else nil
  | .Rep g, c => seq (derive g c) (Grammar.Rep g)
  | .Alt g1 g2, c => alt (derive g1 c) (derive g2 c)
  | .Seq g1 g2, c =>
      let dcl_r := seq (derive g1 c) g2
      if is_nullable g1 then alt dcl_r (seq (eps (parse_null g1)) (derive g2 c))
      else dcl_r
  | .Red g f, c => red (derive g c) f

/-- `derive_seq` from `pwd.py` (lines 51–56), as called by `derive` on a
`Seq` node. -/
def derive_seq [DecidableEq V] (c : V) (g1 g2 : Grammar V) : Grammar V :=
  let dcl_r := seq (derive g1 c) g2
  if is_nullable g1 then alt dcl_r (seq (eps (parse_null g1)) (derive g2 c))
  else dcl_r

/-- `nullp` from `pwd.py` (lines 73–81) together with the `nullp_t` scratch
global, paired as an `Option` exactly as the spec's §9 design note describes:
`some t` when `is_nullable g` holds and `parse_null g` is the singleton
`[t]`, otherwise `none`. -/
def nullable_singleton (g : Grammar V) : Option (Tree V) :=
  if is_nullable g then
    match parse_null g with
    | [t] => some t
    | _ => none
  else none

/-- `make_compact` from `pwd.py` (lines 83–107), clause by clause in the
source's `match_pred` order (first matching predicate wins). -/
def make_compact : Grammar V → Grammar V
  | .Nil => .Nil
  | .Eps ts => .Eps ts
  | .Tok t => if is_empty (Grammar.Tok t) then nil else .Tok t
  | .Rep g => if is_empty g then eps [Tree.Empty] else Grammar.Rep (make_compact g)
  | .Alt g1 g2 =>
      if is_empty g1 then make_compact g2
      else if is_empty g2 then make_compact g1
      else alt (make_compact g1) (make_compact g2)
  | .Seq g1 g2 =>
      if is_empty g1 || is_empty g2 then nil
      else
        match nullable_singleton g1 with
        | some t => red (make_compact g2) (fun w2 => Tree.Branch t w2)
        | none =>
            match nullable_singleton g2 with
            | some t => red (make_compact g1) (fun w1 => Tree.Branch w1 t)
            | none => seq (make_compact g1) (make_compact g2)
  | .Red (.Eps ts) f => eps (ts.map f)
  | .Red (.Seq g1 g2) f =>
      (match nullable_singleton g1 with
       | some t => red (make_compact g2) (fun w => f (Tree.Branch t w))
       | none => red (make_compact (Grammar.Seq g1 g2)) f)
  | .Red (.Red g h) _ => red (make_compact g) (fun t => h t)
  | .Red g f => red (make_compact g) f

/-- `parse` from `pwd.py` (lines 110–115). -/
def parse [DecidableEq V] : List V → Grammar V → List (Tree V)
  | [], g => parse_null g
  | c :: cs, g => parse cs (derive g c)

/-- `parse_compact` from `pwd.py` (lines 118–123). -/
def parse_compact [DecidableEq V] : List V → Grammar V → List (Tree V)
  | [], g => parse_null g
  | c :: cs, g => parse_compact cs (make_compact (derive g c))

/-- Number of nested `Red` wrappers at the root of a grammar term; used to
distinguish compaction results by shape, independently of the reduction
functions they carry. -/
def red_chain_length : Grammar V → Nat
  | .Red g _ => red_chain_length g + 1
  | _ => 0

theorem empty_not_nullable : ∀ g : Grammar V, is_empty g = true → is_nullable g = false := by
  intro g
  induction g with
  | Nil => intro _; rfl
  | Eps ts => intro h; exact absurd h (by simp [is_empty])
  | Tok t => intro _; rfl
  | Rep g ih => intro h; exact absurd h (by simp [is_empty])
  | Alt g1 g2 ih1 ih2 =>
      intro h
      simp only [is_empty, Bool.and_eq_true] at h
      simp [is_nullable, ih1 h.1, ih2 h.2]
  | Seq g1 g2 ih1 ih2 =>
      intro h
      simp only [is_empty, Bool.or_eq_true] at h
      rcases h with h | h
      · simp [is_nullable, ih1 h]
      · simp [is_nullable, ih2 h]
  | Red g f ih => intro h; exact ih h

theorem parse_null_of_empty : ∀ g : Grammar V, is_empty g = true → parse_null g = [] := by
  intro g
  induction g with
  | Nil => intro _; rfl
  | Eps ts => intro h; exact absurd h (by simp [is_empty])
  | Tok t => intro _; rfl
  | Rep g ih => intro h; exact absurd h (by simp [is_empty])
  | Alt g1 g2 ih1 ih2 =>
      intro h
      simp only [is_empty, Bool.and_eq_true] at h
      simp [parse_null, ih1 h.1, ih2 h.2]
  | Seq g1 g2 ih1 ih2 =>
      intro h
      simp only [is_empty, Bool.or_eq_true] at h
      rcases h with h | h
      · simp [parse_null, ih1 h]
      · simp [parse_null, ih2 h, List.flatMap_eq_nil_iff]
  | Red g f ih => intro h; simp [parse_null, ih h]

theorem is_empty_derive [DecidableEq V] :
    ∀ (g : Grammar V) (c : V), is_empty g = true → is_empty (derive g c) = true := by
  intro g
  induction g with
  | Nil => intro c _; rfl
  | Eps ts => intro c _; rfl
  | Tok t => intro c h; exact absurd h (by simp [is_empty])
  | Rep g ih => intro c h; exact absurd h (by simp [is_empty])
  | Alt g1 g2 ih1 ih2 =>
      intro c h
      simp only [is_empty, Bool.and_eq_true] at h
      simp [derive, alt, is_empty, ih1 c h.1, ih2 c h.2]
  | Seq g1 g2 ih1 ih2 =>
      intro c h
      simp only [is_empty, Bool.or_eq_true] at h
      rcases h with h | h
      · have hn := empty_not_nullable g1 h
        simp [derive, hn, seq, is_empty, ih1 c h]
      · by_cases hn : is_nullable g1 = true
        · simp [derive, hn, alt, seq, eps, is_empty, ih2 c h, h]
        · simp only [Bool.not_eq_true] at hn
          simp [derive, hn, seq, is_empty, h]
  | Red g f ih =>
      intro c h
      simp [derive, red, is_empty, ih c h]

/-- Grammars built without `Seq` and without `Red` nodes. -/
def seq_red_free : Grammar V → Bool
  | .Nil => true
  | .Eps _ => true
  | .Tok _ => true
  | .Rep g => seq_red_free g
  | .Alt g1 g2 => seq_red_free g1 && seq_red_free g2
  | .Seq _ _ => false
  | .Red _ _ => false

theorem is_empty_make_compact :
    ∀ g : Grammar V, seq_red_free g = true → is_empty (make_compact g) = is_empty g := by
  intro g
  induction g with
  | Nil => intro _; rfl
  | Eps ts => intro _; rfl
  | Tok t => intro _; rfl
  | Rep g ih =>
      intro _
      by_cases h : is_empty g = true
      · simp [make_compact, h, eps, is_empty]
      · simp only [Bool.not_eq_true] at h
        simp [make_compact, h, is_empty]
  | Alt g1 g2 ih1 ih2 =>
      intro hs
      simp only [seq_red_free, Bool.and_eq_true] at hs
      by_cases h1 : is_empty g1 = true
      · simp [make_compact, h1, is_empty, ih2 hs.2]
      · simp only [Bool.not_eq_true] at h1
        by_cases h2 : is_empty g2 = true
        · simp [make_compact, h1, h2, is_empty, ih1 hs.1]
        · simp only [Bool.not_eq_true] at h2
          simp [make_compact, h1, h2, alt, is_empty, ih1 hs.1, ih2 hs.2]
  | Seq g1 g2 ih1 ih2 => intro hs; exact absurd hs (by simp [seq_red_free])
  | Red g f ih => intro hs; exact absurd hs (by simp [seq_red_free])

theorem seq_red_free_make_compact :
    ∀ g : Grammar V, seq_red_free g = true → seq_red_free (make_compact g) = true := by
  intro g
  induction g with
  | Nil => intro _; rfl
  | Eps ts => intro _; rfl
  | Tok t => intro _; rfl
  | Rep g ih =>
      intro hs
      by_cases h : is_empty g = true
      · simp [make_compact, h, eps, seq_red_free]
      · simp only [Bool.not_eq_true] at h
        simp only [seq_red_free] at hs
        simp [make_compact, h, seq_red_free, ih hs]
  | Alt g1 g2 ih1 ih2 =>
      intro hs
      simp only [seq_red_free, Bool.and_eq_true] at hs
      by_cases h1 : is_empty g1 = true
      · simp [make_compact, h1, ih2 hs.2]
      · simp only [Bool.not_eq_true] at h1
        by_cases h2 : is_empty g2 = true
        · simp [make_compact, h1, h2, ih1 hs.1]
        · simp only [Bool.not_eq_true] at h2
          simp [make_compact, h1, h2, alt, seq_red_free, ih1 hs.1, ih2 hs.2]
  | Seq g1 g2 ih1 ih2 => intro hs; exact absurd hs (by simp [seq_red_free])
  | Red g f ih => intro hs; exact absurd hs (by simp [seq_red_free])

theorem make_compact_idem_aux :
    ∀ g : Grammar V, seq_red_free g = true → make_compact (make_compact g) = make_compact g := by
  intro g
  induction g with
  | Nil => intro _; rfl
  | Eps ts => intro _; rfl
  | Tok t => intro _; rfl
  | Rep g ih =>
      intro hs
      simp only [seq_red_free] at hs
      by_cases h : is_empty g = true
      · simp [make_compact, h, eps]
      · simp only [Bool.not_eq_true] at h
        have he : is_empty (make_compact g) = false := by
          rw [is_empty_make_compact g hs]; exact h
        simp [make_compact, h, he, ih hs]
  | Alt g1 g2 ih1 ih2 =>
      intro hs
      simp only [seq_red_free, Bool.and_eq_true] at hs
      by_cases h1 : is_empty g1 = true
      · simp [make_compact, h1, ih2 hs.2]
      · simp only [Bool.not_eq_true] at h1
        by_cases h2 : is_empty g2 = true
        · simp [make_compact, h1, h2, ih1 hs.1]
        · simp only [Bool.not_eq_true] at h2
          have he1 : is_empty (make_compact g1) = false := by
            rw [is_empty_make_compact g1 hs.1]; exact h1
          have he2 : is_empty (make_compact g2) = false := by
            rw [is_empty_make_compact g2 hs.2]; exact h2
          simp [make_compact, h1, h2, alt, he1, he2, ih1 hs.1, ih2 hs.2]
  | Seq g1 g2 ih1 ih2 => intro hs; exact absurd hs (by simp [seq_red_free])
  | Red g f ih => intro hs; exact absurd hs (by simp [seq_red_free])

/-- Grammars with no `Rep` node in which every `Eps` node carries a nonempty
tree list: the fragment on which `is_nullable` agrees with nonemptiness of
`parse_null`. -/
def rep_free_eps_nonempty : Grammar V → Bool
  | .Nil => true
  | .Eps ts => !ts.isEmpty
  | .Tok _ => true
  | .Rep _ => false
  | .Alt g1 g2 => rep_free_eps_nonempty g1 && rep_free_eps_nonempty g2
  | .Seq g1 g2 => rep_free_eps_nonempty g1 && rep_free_eps_nonempty g2
  | .Red g _ => rep_free_eps_nonempty g

/-- C1: for every grammar g and token list w the claim asserts
parse(w, make_compact(g)) = parse(w, g); the code refutes it.  On the grammar
Red(Red(Tok 0, h), f) with h(t) = Branch(t, Empty) and f(t) = Branch(Empty, t)
and input [0], make_compact drops the outer reduction f, so parsing the
compacted grammar applies only h while the original applies f after h, and
the two parse-result lists differ. -/
theorem c1_make_compact_changes_parse_results :
    parse [0]
        (make_compact (Grammar.Red
          (Grammar.Red (Grammar.Tok (0 : Nat)) (fun t => Tree.Branch t Tree.Empty))
          (fun t => Tree.Branch Tree.Empty t)))
      = [Tree.Branch (Tree.Leaf 0) Tree.Empty] ∧
    parse [0]
        (Grammar.Red
          (Grammar.Red (Grammar.Tok (0 : Nat)) (fun t => Tree.Branch t Tree.Empty))
          (fun t => Tree.Branch Tree.Empty t))
      = [Tree.Branch Tree.Empty (Tree.Branch (Tree.Leaf 0) Tree.Empty)] ∧
    ([Tree.Branch (Tree.Leaf (0 : Nat)) Tree.Empty] : List (Tree Nat))
      ≠ [Tree.Branch Tree.Empty (Tree.Branch (Tree.Leaf 0) Tree.Empty)] := by
  refine ⟨rfl, rfl, ?_⟩
  decide

/-- C2: the claim asserts is_nullable(g) = true iff parse_null(g) ≠ [] for
every g, and in particular that the two agree on every Rep node.  The code
refutes it at Rep(Tok 0): is_nullable is false (the Rep clause is
`is_nullable(g) or is_empty(g)` and Tok 0 is neither) while parse_null is the
nonempty list [Empty]. -/
theorem c2_counterexample_rep_tok :
    is_nullable (Grammar.Rep (Grammar.Tok (0 : Nat))) = false ∧
    parse_null (Grammar.Rep (Grammar.Tok (0 : Nat))) ≠ [] := by
  exact ⟨rfl, by decide⟩

/-- C2 (amended): on grammars with no Rep node and with every Eps node
carrying a nonempty tree list, is_nullable(g) returns true if and only if
parse_null(g) is a nonempty list. -/
theorem c2_nullable_iff_parse_null_nonempty :
    ∀ g : Grammar V, rep_free_eps_nonempty g = true →
      (is_nullable g = true ↔ parse_null g ≠ []) := by
  intro g
  induction g with
  | Nil => intro _; simp [is_nullable, parse_null]
  | Eps ts =>
      intro h
      simp only [rep_free_eps_nonempty, Bool.not_eq_true', List.isEmpty_eq_false] at h
      simpa [is_nullable, parse_null] using h
  | Tok t => intro _; simp [is_nullable, parse_null]
  | Rep g ih => intro h; exact absurd h (by simp [rep_free_eps_nonempty])
  | Alt g1 g2 ih1 ih2 =>
      intro h
      simp only [rep_free_eps_nonempty, Bool.and_eq_true] at h
      simp only [is_nullable, parse_null, Bool.or_eq_true, ih1 h.1, ih2 h.2,
        ne_eq, List.append_eq_nil]
      tauto
  | Seq g1 g2 ih1 ih2 =>
      intro h
      simp only [rep_free_eps_nonempty, Bool.and_eq_true] at h
      simp only [is_nullable, parse_null, Bool.and_eq_true, ih1 h.1, ih2 h.2, ne_eq,
        List.flatMap_eq_nil_iff, List.map_eq_nil_iff, not_forall]
      constructor
      · rintro ⟨h1, h2⟩
        rcases List.exists_mem_of_ne_nil _ h1 with ⟨t1, ht1⟩
        exact ⟨t1, ht1, h2⟩
      · rintro ⟨t1, ht1, h2⟩
        exact ⟨List.ne_nil_of_mem ht1, h2⟩
  | Red g f ih =>
      intro h
      simp only [rep_free_eps_nonempty] at h
      simp only [is_nullable, parse_null, ih h, ne_eq, List.map_eq_nil_iff]

/-- C2 (amended) witness at the grammar Alt(Eps([Empty]), Tok 0). -/
theorem c2_nullable_iff_parse_null_nonempty_witness :
    rep_free_eps_nonempty (Grammar.Alt (Grammar.Eps [Tree.Empty]) (Grammar.Tok (0 : Nat))) = true ∧
    (is_nullable (Grammar.Alt (Grammar.Eps [Tree.Empty]) (Grammar.Tok (0 : Nat))) = true ↔
      parse_null (Grammar.Alt (Grammar.Eps [Tree.Empty]) (Grammar.Tok (0 : Nat))) ≠ []) :=
  ⟨by decide, c2_nullable_iff_parse_null_nonempty _ (by decide)⟩

/-- C3: the claim (and the spec's compaction table) say make_compact on
Red(Red(g, h), f) returns red(make_compact(g), λw. f(h(w))).  The code instead
returns red(make_compact(g), λt. h(t)), dropping the outer reduction f: at
g = Tok 0 the returned reduction and the composed reduction disagree on the
tree Leaf 0. -/
theorem c3_red_red_drops_outer_function :
    make_compact (Grammar.Red
        (Grammar.Red (Grammar.Tok (0 : Nat)) (fun t => Tree.Branch t Tree.Empty))
        (fun t => Tree.Branch Tree.Empty t))
      = Grammar.Red (Grammar.Tok 0) (fun t => Tree.Branch t Tree.Empty) ∧
    (fun t => Tree.Branch t Tree.Empty) (Tree.Leaf (0 : Nat))
      ≠ (fun w => (fun t => Tree.Branch Tree.Empty t) ((fun t => Tree.Branch t Tree.Empty) w))
          (Tree.Leaf 0) := by
  exact ⟨rfl, by decide⟩

/-- C4: derive on Seq(g₁, g₂) with token c returns
alt(seq(derive(g₁,c), g₂), seq(eps(parse_null(g₁)), derive(g₂,c))) when
is_nullable(g₁) holds and seq(derive(g₁,c), g₂) otherwise, and this is
exactly what derive_seq computes. -/
theorem c4_derive_seq_cases [DecidableEq V] (g1 g2 : Grammar V) (c : V) :
    derive (Grammar.Seq g1 g2) c = derive_seq c g1 g2 ∧
    derive_seq c g1 g2 =
      (if is_nullable g1 then
        alt (seq (derive g1 c) g2) (seq (eps (parse_null g1)) (derive g2 c))
      else seq (derive g1 c) g2) :=
  ⟨rfl, rfl⟩

/-- C5: parse returns parse_null(g) on the empty token list and recurses on
derive(g, c) for a first token c; parse_compact is the same fold with each
derivative passed through make_compact. -/
theorem c5_parse_fold_equations [DecidableEq V] (g : Grammar V) (c : V) (cs : List V) :
    parse ([] : List V) g = parse_null g ∧
    parse (c :: cs) g = parse cs (derive g c) ∧
    parse_compact ([] : List V) g = parse_null g ∧
    parse_compact (c :: cs) g = parse_compact cs (make_compact (derive g c)) :=
  ⟨rfl, rfl, rfl, rfl⟩

/-- C6: for every grammar g with is_empty(g) = true and every token list w,
parse(w, g) returns the empty list (and, the functions being total, no error
is raised). -/
theorem c6_empty_parse_nil [DecidableEq V] :
    ∀ (w : List V) (g : Grammar V), is_empty g = true → parse w g = [] := by
  intro w
  induction w with
  | nil => intro g h; exact parse_null_of_empty g h
  | cons c cs ih => intro g h; exact ih (derive g c) (is_empty_derive g c h)

/-- C6 witness at the empty grammar Nil and the token list [0, 1]. -/
theorem c6_empty_parse_nil_witness :
    is_empty (Grammar.Nil : Grammar Nat) = true ∧
    parse [0, 1] (Grammar.Nil : Grammar Nat) = [] :=
  ⟨rfl, c6_empty_parse_nil [0, 1] Grammar.Nil rfl⟩

/-- C7: the claim asserts make_compact(make_compact(g)) is identity-equivalent
to make_compact(g) for every g; the code refutes it.  On the triple reduction
Red(Red(Red(Tok 0, id), id), id), one compaction pass strips one Red wrapper
(leaving a chain of two) and a second pass strips another (leaving one), so
the two results differ already in shape. -/
theorem c7_counterexample_not_idempotent :
    red_chain_length
        (make_compact (make_compact (Grammar.Red
          (Grammar.Red (Grammar.Red (Grammar.Tok (0 : Nat)) (fun t => t)) (fun t => t))
          (fun t => t)))) = 1 ∧
    red_chain_length
        (make_compact (Grammar.Red
          (Grammar.Red (Grammar.Red (Grammar.Tok (0 : Nat)) (fun t => t)) (fun t => t))
          (fun t => t))) = 2 ∧
    make_compact (make_compact (Grammar.Red
        (Grammar.Red (Grammar.Red (Grammar.Tok (0 : Nat)) (fun t => t)) (fun t => t))
        (fun t => t)))
      ≠ make_compact (Grammar.Red
        (Grammar.Red (Grammar.Red (Grammar.Tok (0 : Nat)) (fun t => t)) (fun t => t))
        (fun t => t)) := by
  refine ⟨rfl, rfl, fun h => ?_⟩
  have h2 := congrArg red_chain_length h
  have h3 : (1 : Nat) = 2 := h2
  exact absurd h3 (by decide)

/-- C7 (amended): make_compact is idempotent on grammars built without Seq
and Red nodes: on that fragment make_compact(make_compact(g)) =
make_compact(g). -/
theorem c7_idempotent_on_seq_red_free (g : Grammar V) (h : seq_red_free g = true) :
    make_compact (make_compact g) = make_compact g :=
  make_compact_idem_aux g h

/-- C7 (amended) witness at the grammar Alt(Nil, Tok 0). -/
theorem c7_idempotent_on_seq_red_free_witness :
    seq_red_free (Grammar.Alt Grammar.Nil (Grammar.Tok (0 : Nat))) = true ∧
    make_compact (make_compact (Grammar.Alt Grammar.Nil (Grammar.Tok (0 : Nat))))
      = make_compact (Grammar.Alt Grammar.Nil (Grammar.Tok (0 : Nat))) :=
  ⟨rfl, c7_idempotent_on_seq_red_free _ rfl⟩

/-- C9: is_empty returns false on every Tok node, so the defensive Tok clause
of make_compact that would rewrite to nil() never fires and make_compact
returns every Tok node unchanged. -/
theorem c9_tok_compacts_to_itself (t : V) :
    is_empty (Grammar.Tok t) = false ∧ make_compact (Grammar.Tok t) = Grammar.Tok t :=
  ⟨rfl, rfl⟩

end DerpGen

namespace GrammarParse

/-!
Embedding of the grammar front-end, `src/derpgen/grammar/parse/parser.py`
together with the AST types of `src/derpgen/grammar/parse/ast.py`.  The
parser object's mutable fields become an explicit `ParserState`; a Python
`raise` becomes an `Except.error`; every `while` loop and recursive descent
call is fueled, an out-of-fuel result being a distinguished error that never
occurs in the concrete runs below.
-/

/-- Modelled from the spec (§6.2): the tokenizer module (`TokenTypes`,
`TokenTypeClasses`, `Token`) is not under `src/`.  One constructor per token
type that `parser.py` inspects. -/
inductive TokenType where
  | SECTION
  | SUBST
  | STICK
  | COLON
  | EQUAL
  | RE_EQUAL
  | SEQ_PARAM
  | L_PAR
  | R_PAR
  | L_BRK
  | R_BRK
  | L_BRC
  | R_BRC
  | L_ABR
  | R_ABR
  | QUOTE
  | LOW_CASE
  | CAP_CASE
  | WHITESPACE
  | COMMENT
  | EOF
deriving DecidableEq, Repr

/-- Modelled from the spec (§6.2): a token pairs a type with its text. -/
structure Token where
  type : TokenType
  value : String
deriving DecidableEq, Repr

/-- Modelled from the spec: membership in `TokenTypeClasses.SECTIONS`. -/
def in_sections (t : TokenType) : Bool := t = TokenType.SECTION

/-- Modelled from the spec: membership in `TokenTypeClasses.WHITESPACE`. -/
def in_whitespace (t : TokenType) : Bool := t = TokenType.WHITESPACE

/-- Modelled from the spec: membership in `TokenTypeClasses.COMMENTS`. -/
def in_comments (t : TokenType) : Bool := t = TokenType.COMMENT

/-- Modelled from the spec: membership in `TokenTypeClasses.EOF`. -/
def in_eof (t : TokenType) : Bool := t = TokenType.EOF

/-- Modelled from the spec: membership in `TokenTypeClasses.DIVIDERS`, the
rule/production separators `::=` and `|`. -/
def in_dividers (t : TokenType) : Bool := t = TokenType.SUBST || t = TokenType.STICK

/-- Modelled from the spec: membership in `TokenTypeClasses.OPERATORS`. -/
def in_operators (t : TokenType) : Bool := t = TokenType.SEQ_PARAM

/-- Modelled from the spec: membership in `TokenTypeClasses.LOW_CASES`. -/
def in_low_cases (t : TokenType) : Bool := t = TokenType.LOW_CASE

/-- Modelled from the spec: membership in `TokenTypeClasses.CAP_CASES`. -/
def in_cap_cases (t : TokenType) : Bool := t = TokenType.CAP_CASE

/-- Modelled from the spec: membership in `TokenTypeClasses.QUOTES`. -/
def in_quotes (t : TokenType) : Bool := t = TokenType.QUOTE

/-- Modelled from the spec: membership in `TokenTypeClasses.SEQUENCES`, the
opening brackets of the four sequence forms `()`, `[]`, `{}`, `⟨⟩`. -/
def in_sequences (t : TokenType) : Bool :=
  t = TokenType.L_PAR || t = TokenType.L_BRK || t = TokenType.L_BRC || t = TokenType.L_ABR

/-- Modelled from the spec: `BRACE_PAIRS`, the closing bracket matching each
opening bracket (queried only on sequence openers). -/
def brace_pair : TokenType → TokenType
  | .L_PAR => .R_PAR
  | .L_BRK => .R_BRK
  | .L_BRC => .R_BRC
  | .L_ABR => .R_ABR
  | _ => .EOF

/-- `SequenceType` from `ast.py` (lines 11–17). -/
inductive SequenceType where
  | PLAIN
  | OPTIONAL
  | REPETITION
  | NONEMPTY_REPETITION
  | ALTERNATING
deriving DecidableEq, Repr

/-- The AST of `ast.py` (lines 19–70): the part and production variants in
one inductive type (in Python they are dataclasses subclassing `AST`). -/
inductive AST where
  | Sequence (type : SequenceType) (asts : List AST)
  | ParameterizedSequence (sequence : AST) (parameter : AST)
  | Literal (string : String)
  | DeclaredToken (token : String)
  | PatternMatch (name : String) (matched : AST)
  | RuleMatch (rule : String)
  | NamedProduction (name : String) (parts : List AST)
  | AliasProduction (aliased : String)

/-- `Rule` from `ast.py` (lines 73–76): a name with its productions. -/
structure Rule where
  name : String
  productions : List AST

/-- Modelled from the spec (§6.2): `matcher.py` is not under `src/`; a token
matcher is literal or regex, and a compiled regex is represented by its
pattern text. -/
inductive Matcher where
  | LiteralMatcher (name : String) (literal : String)
  | RegexMatcher (name : String) (pattern : String)
deriving DecidableEq, Repr

/-- The `name` attribute shared by both matcher variants. -/
def Matcher.name : Matcher → String
  | .LiteralMatcher n _ => n
  | .RegexMatcher n _ => n

/-- The Python exceptions `parser.py` can raise, plus the fuel marker of
this embedding. -/
inductive PyError where
  | RuntimeError
  | ValueError
  | KeyError
  | StopIteration
  | IndexError
  | EndOfRule
  | OutOfFuel
deriving DecidableEq, Repr

/-- The mutable fields of the `Parser` object: the filtered token list, the
cursor, and the three result maps.  Python's insertion-ordered dicts become
association lists; the start-symbol set becomes a duplicate-free list. -/
structure ParserState where
  tokens : List Token
  index : Nat
  rules : List (String × Rule)
  token_matchers : List (String × Matcher)
  start_symbols : List String

/-- `ParsedGrammar` from `parser.py` (lines 17–19). -/
structure ParsedGrammar where
  rules : List (String × Rule)
  token_matchers : List (String × Matcher)
  start_symbols : List String

/-- The `Parser.token` property: the current token, or `IndexError` past the
end of the list. -/
def ParserState.token (s : ParserState) : Except PyError Token :=
  match s.tokens.get? s.index with
  | some t => .ok t
  | none => .error .IndexError

/-- The `Parser.next_token` property: the lookahead token, if any. -/
def ParserState.next_token (s : ParserState) : Option Token :=
  s.tokens.get? (s.index + 1)

/-- The `Parser.advance` method. -/
def ParserState.advance (s : ParserState) (inc : Nat) : ParserState :=
  { s with index := s.index + inc }

/-- Addition to a Python set, on the duplicate-free list model. -/
def set_add (l : List String) (x : String) : List String :=
  if x ∈ l then l else l ++ [x]

/-- Python's string slice `s[1:-1]`, on the character-list representation of
strings (Lean's built-in `String` functions do not evaluate inside the
kernel, so the three Python string operations used by `Parser.parse` are
modelled directly on `String.data`). -/
def py_slice_inner (s : String) : String := ⟨(s.data.drop 1).dropLast⟩

/-- Python's `str.strip()`: remove leading and trailing whitespace. -/
def py_strip (s : String) : String :=
  ⟨((s.data.dropWhile Char.isWhitespace).reverse.dropWhile Char.isWhitespace).reverse⟩

/-- Python's `str.lower()` (the section names involved are ASCII). -/
def py_lower (s : String) : String := ⟨s.data.map Char.toLower⟩

/-- `Parser.__init__` (lines 27–42): filter out whitespace and comments and
raise `ValueError` when nothing is left. -/
def parser_init (tokens : List Token) : Except PyError ParserState :=
  let toks := tokens.filter (fun t => !(in_whitespace t.type) && !(in_comments t.type))
  if toks.isEmpty then .error .ValueError
  else .ok ⟨toks, 0, [], [], []⟩

mutual

/-- `Parser.parse_part` (lines 127–157). -/
def parse_part : Nat → ParserState → Except PyError (AST × ParserState)
  | 0, _ => .error .OutOfFuel
  | fuel + 1, s => do
    let t ← s.token
    if in_sequences t.type then parse_sequence fuel s
    else if in_quotes t.type then .ok (AST.Literal t.value, s.advance 1)
    else if in_low_cases t.type then
      match s.next_token with
      | some nt =>
          if nt.type = TokenType.SUBST then .error .EndOfRule
          else if nt.type = TokenType.COLON then do
            let (matched, s') ← parse_part fuel (s.advance 2)
            .ok (AST.PatternMatch t.value matched, s')
          else .ok (AST.RuleMatch t.value, s.advance 1)
      | none => .ok (AST.RuleMatch t.value, s.advance 1)
    else if in_cap_cases t.type then .ok (AST.DeclaredToken t.value, s.advance 1)
    else .error .RuntimeError

/-- The `while` loop of `Parser.parse_sequence` (lines 165–175), accumulating
`parts` and `alternates`; a `STICK` flushes `parts` into `alternates`, and an
`EndOfRule` from `parse_part` breaks out of the loop. -/
def parse_sequence_loop :
    Nat → TokenType → List AST → List (List AST) → ParserState →
      Except PyError ((List AST × List (List AST)) × ParserState)
  | 0, _, _, _, _ => .error .OutOfFuel
  | fuel + 1, endTok, parts, alternates, s => do
    let t ← s.token
    if t.type = endTok then .ok ((parts, alternates), s)
    else if t.type = TokenType.STICK then
      parse_sequence_loop fuel endTok [] (alternates ++ [parts]) (s.advance 1)
    else
      match parse_part fuel s with
      | .error PyError.EndOfRule => .ok ((parts, alternates), s)
      | .error e => .error e
      | .ok (part, s') => parse_sequence_loop fuel endTok (parts ++ [part]) alternates s'

/-- `Parser.parse_sequence` (lines 159–199). -/
def parse_sequence : Nat → ParserState → Except PyError (AST × ParserState)
  | 0, _ => .error .OutOfFuel
  | fuel + 1, s => do
    let t ← s.token
    let seq_type ← (match t.type with
      | TokenType.L_PAR => Except.ok SequenceType.PLAIN
      | TokenType.L_BRK => Except.ok SequenceType.OPTIONAL
      | TokenType.L_BRC => Except.ok SequenceType.REPETITION
      | TokenType.L_ABR => Except.ok SequenceType.NONEMPTY_REPETITION
      | _ => Except.error PyError.RuntimeError)
    let expected_end := brace_pair t.type
    let ((parts0, alternates0), s1) ← parse_sequence_loop fuel expected_end [] [] (s.advance 1)
    let s2 := s1.advance 1
    let pa :=
      if !alternates0.isEmpty && !parts0.isEmpty then (([] : List AST), alternates0 ++ [parts0])
      else (parts0, alternates0)
    let parts := pa.1
    let alternates := pa.2
    let sequence :=
      if !parts.isEmpty then AST.Sequence seq_type parts
      else if !alternates.isEmpty then
        AST.Sequence SequenceType.ALTERNATING
          (alternates.map (fun a =>
            match a with
            | [p] => p
            | _ => AST.Sequence seq_type a))
      else AST.Sequence seq_type parts
    let t2 ← s2.token
    if t2.type = TokenType.SEQ_PARAM then do
      let (param, s3) ← parse_sequence fuel (s2.advance 1)
      .ok (AST.ParameterizedSequence sequence param, s3)
    else .ok (sequence, s2)

end

/-- The `while` loop of `Parser.parse_named_production` (lines 110–121). -/
def parse_named_production_loop :
    Nat → List AST → ParserState → Except PyError (List AST × ParserState)
  | 0, _, _ => .error .OutOfFuel
  | fuel + 1, parts, s => do
    let t ← s.token
    if !(in_eof t.type) && !(in_sections t.type) && !(in_dividers t.type)
        && !(in_operators t.type) then
      match s.next_token with
      | some nt =>
          if nt.type = TokenType.SUBST then .ok (parts, s)
          else do
            let (part, s') ← parse_part fuel s
            parse_named_production_loop fuel (parts ++ [part]) s'
      | none => do
          let (part, s') ← parse_part fuel s
          parse_named_production_loop fuel (parts ++ [part]) s'
    else .ok (parts, s)

/-- `Parser.parse_named_production` (lines 105–125). -/
def parse_named_production : Nat → ParserState → Except PyError (AST × ParserState)
  | 0, _ => .error .OutOfFuel
  | fuel + 1, s => do
    let t ← s.token
    let (parts, s') ← parse_named_production_loop fuel [] (s.advance 1)
    if parts.isEmpty then .error .RuntimeError
    else .ok (AST.NamedProduction t.value parts, s')

/-- `Parser.parse_alias_production` (lines 201–204). -/
def parse_alias_production (s : ParserState) : Except PyError (AST × ParserState) := do
  let t ← s.token
  .ok (AST.AliasProduction t.value, s.advance 1)

/-- `Parser.parse_production` (lines 97–103). -/
def parse_production : Nat → ParserState → Except PyError (AST × ParserState)
  | 0, _ => .error .OutOfFuel
  | fuel + 1, s => do
    let t ← s.token
    if in_cap_cases t.type then parse_named_production fuel s
    else if in_low_cases t.type then parse_alias_production s
    else .error .RuntimeError

/-- The `while` loop of `Parser.parse_rule` (lines 87–90). -/
def parse_rule_loop : Nat → List AST → ParserState → Except PyError (List AST × ParserState)
  | 0, _, _ => .error .OutOfFuel
  | fuel + 1, productions, s => do
    let t ← s.token
    if in_dividers t.type then do
      let (p, s') ← parse_production fuel (s.advance 1)
      parse_rule_loop fuel (productions ++ [p]) s'
    else .ok (productions, s)

/-- `Parser.parse_rule` (lines 82–95). -/
def parse_rule : Nat → ParserState → Except PyError (Rule × ParserState)
  | 0, _ => .error .OutOfFuel
  | fuel + 1, s => do
    let t ← s.token
    if !(in_low_cases t.type) then .error .RuntimeError
    else do
      let (productions, s') ← parse_rule_loop fuel [] (s.advance 1)
      if productions.isEmpty then .error .RuntimeError
      else .ok (⟨t.value, productions⟩, s')

/-- `Parser.parse_rules` (lines 74–80): parse rules until a section header or
the end of input, raising `RuntimeError` on a duplicated rule name, otherwise
recording the rule under its name. -/
def parse_rules : Nat → ParserState → Except PyError ParserState
  | 0, _ => .error .OutOfFuel
  | fuel + 1, s => do
    let t ← s.token
    if !(in_eof t.type) && !(in_sections t.type) then do
      let (rule, s') ← parse_rule fuel s
      if (s'.rules.lookup rule.name).isSome then .error .RuntimeError
      else parse_rules fuel { s' with rules := s'.rules ++ [(rule.name, rule)] }
    else .ok s

/-- `Parser.parse_token_matcher` (lines 214–229). -/
def parse_token_matcher (s : ParserState) : Except PyError (Matcher × ParserState) := do
  let t ← s.token
  if !(in_cap_cases t.type) then .error .RuntimeError
  else do
    let s1 := s.advance 1
    let t1 ← s1.token
    if t1.type = TokenType.EQUAL then do
      let s2 := s1.advance 1
      let t2 ← s2.token
      .ok (Matcher.LiteralMatcher t.value t2.value, s2.advance 1)
    else if t1.type = TokenType.RE_EQUAL then do
      let s2 := s1.advance 1
      let t2 ← s2.token
      .ok (Matcher.RegexMatcher t.value t2.value, s2.advance 1)
    else .error .RuntimeError

/-- `Parser.parse_token_matchers` (lines 206–212). -/
def parse_token_matchers : Nat → ParserState → Except PyError ParserState
  | 0, _ => .error .OutOfFuel
  | fuel + 1, s => do
    let t ← s.token
    if !(in_eof t.type) && !(in_sections t.type) then do
      let (matcher, s') ← parse_token_matcher s
      if (s'.token_matchers.lookup matcher.name).isSome then .error .RuntimeError
      else
        parse_token_matchers fuel
          { s' with token_matchers := s'.token_matchers ++ [(matcher.name, matcher)] }
    else .ok s

/-- `Parser.parse_start` (lines 231–240). -/
def parse_start : Nat → ParserState → Except PyError ParserState
  | 0, _ => .error .OutOfFuel
  | fuel + 1, s => do
    let t ← s.token
    if !(in_eof t.type) && !(in_sections t.type) then
      if !(in_low_cases t.type) then .error .RuntimeError
      else if t.value ∈ s.start_symbols then .error .RuntimeError
      else
        parse_start fuel
          { s with start_symbols := set_add s.start_symbols t.value, index := s.index + 1 }
    else .ok s

/-- The `SECTION_DISPATCH` table of `Parser.__init__` (lines 38–42): Python
raises `KeyError` on an unknown section name. -/
def dispatch_section (fuel : Nat) (name : String) (s : ParserState) :
    Except PyError ParserState :=
  if name = "rules" then parse_rules fuel s
  else if name = "tokens" then parse_token_matchers fuel s
  else if name = "start" then parse_start fuel s
  else .error .KeyError

/-- The `while` loop of `Parser.parse` (lines 61–68): repeatedly read a
section header `[name]`, strip the brackets, normalise the name, and run the
section parser. -/
def parse_sections : Nat → ParserState → Except PyError ParserState
  | 0, _ => .error .OutOfFuel
  | fuel + 1, s => do
    let t ← s.token
    if !(in_eof t.type) then
      if !(in_sections t.type) then .error .RuntimeError
      else do
        let sectionName := py_lower (py_strip (py_slice_inner t.value))
        let s' ← dispatch_section fuel sectionName (s.advance 1)
        parse_sections fuel s'
    else .ok s

/-- `Parser.parse` (lines 61–72): run the section loop, then default the
start-symbol set to the first rule's name when it is empty (Python's
`next(iter(self.rules))` raises `StopIteration` when there are no rules). -/
def parser_parse (fuel : Nat) (s : ParserState) : Except PyError ParsedGrammar := do
  let s1 ← parse_sections fuel s
  if s1.start_symbols.isEmpty then
    match s1.rules with
    | [] => .error .StopIteration
    | (n, _) :: _ => .ok ⟨s1.rules, s1.token_matchers, set_add s1.start_symbols n⟩
  else .ok ⟨s1.rules, s1.token_matchers, s1.start_symbols⟩

/-- C8: whenever the section loop of Parser.parse ends with no explicit start
symbols (the [start] section was absent or empty) and at least one rule was
parsed, Parser.parse returns a ParsedGrammar whose start-symbol set is exactly
the singleton holding the first rule's name. -/
theorem c8_default_start_is_first_rule :
    ∀ (fuel : Nat) (s s1 : ParserState) (n : String) (r : Rule) (rest : List (String × Rule)),
      parse_sections fuel s = Except.ok s1 →
      s1.start_symbols = [] →
      s1.rules = (n, r) :: rest →
      parser_parse fuel s = Except.ok ⟨s1.rules, s1.token_matchers, [n]⟩ := by
  intro fuel s s1 n r rest h hstart hrules
  simp [parser_parse, h, Bind.bind, Except.bind, hstart, hrules, set_add]

/-- Tokens of the description `[rules] r ::= P x`, used by the C8 witness. -/
def c8_tokens : List Token :=
  [⟨TokenType.SECTION, "[rules]"⟩, ⟨TokenType.LOW_CASE, "r"⟩, ⟨TokenType.SUBST, "::="⟩,
   ⟨TokenType.CAP_CASE, "P"⟩, ⟨TokenType.LOW_CASE, "x"⟩, ⟨TokenType.EOF, ""⟩]

/-- Freshly initialised parser state over `c8_tokens`. -/
def c8_state : ParserState := ⟨c8_tokens, 0, [], [], []⟩

/-- The parser state after the section loop over `c8_tokens`. -/
def c8_state1 : ParserState :=
  ⟨c8_tokens, 5,
   [("r", ⟨"r", [AST.NamedProduction "P" [AST.RuleMatch "x"]]⟩)], [], []⟩

/-- C8 witness: a concrete run with one rule and no [start] section. -/
theorem c8_default_start_is_first_rule_witness :
    parse_sections 32 c8_state = Except.ok c8_state1 ∧
    c8_state1.start_symbols = [] ∧
    c8_state1.rules = ("r", ⟨"r", [AST.NamedProduction "P" [AST.RuleMatch "x"]]⟩) :: [] ∧
    parser_parse 32 c8_state = Except.ok ⟨c8_state1.rules, c8_state1.token_matchers, ["r"]⟩ :=
  ⟨rfl, rfl, rfl,
   c8_default_start_is_first_rule 32 c8_state c8_state1 "r"
     ⟨"r", [AST.NamedProduction "P" [AST.RuleMatch "x"]]⟩ [] rfl rfl rfl⟩

/-- C10: when the current token starts a rule and parse_rule returns a rule
whose name is already present in the rules mapping, parse_rules raises
RuntimeError instead of overwriting the existing entry. -/
theorem c10_duplicate_rule_name_errors :
    ∀ (fuel : Nat) (s : ParserState) (t : Token) (r : Rule) (s' : ParserState),
      s.token = Except.ok t →
      in_eof t.type = false →
      in_sections t.type = false →
      parse_rule fuel s = Except.ok (r, s') →
      (s'.rules.lookup r.name).isSome = true →
      parse_rules (fuel + 1) s = Except.error PyError.RuntimeError := by
  intro fuel s t r s' ht he hs hr hdup
  simp [parse_rules, ht, he, hs, hr, hdup, Bind.bind, Except.bind]

/-- Parser state for the C10 witness: the rules mapping already holds a rule
named `r`, and the remaining tokens define `r` a second time. -/
def c10_state : ParserState :=
  ⟨[⟨TokenType.LOW_CASE, "r"⟩, ⟨TokenType.SUBST, "::="⟩, ⟨TokenType.CAP_CASE, "P"⟩,
    ⟨TokenType.LOW_CASE, "x"⟩, ⟨TokenType.EOF, ""⟩], 0,
   [("r", ⟨"r", [AST.AliasProduction "q"]⟩)], [], []⟩

/-- The parser state after parse_rule reads the second definition of `r`. -/
def c10_state1 : ParserState :=
  ⟨[⟨TokenType.LOW_CASE, "r"⟩, ⟨TokenType.SUBST, "::="⟩, ⟨TokenType.CAP_CASE, "P"⟩,
    ⟨TokenType.LOW_CASE, "x"⟩, ⟨TokenType.EOF, ""⟩], 4,
   [("r", ⟨"r", [AST.AliasProduction "q"]⟩)], [], []⟩

/-- C10 witness: a concrete run in which the rule name `r` is defined twice
and parse_rules raises RuntimeError. -/
theorem c10_duplicate_rule_name_errors_witness :
    c10_state.token = Except.ok ⟨TokenType.LOW_CASE, "r"⟩ ∧
    in_eof TokenType.LOW_CASE = false ∧
    in_sections TokenType.LOW_CASE = false ∧
    parse_rule 20 c10_state
      = Except.ok (⟨"r", [AST.NamedProduction "P" [AST.RuleMatch "x"]]⟩, c10_state1) ∧
    (c10_state1.rules.lookup "r").isSome = true ∧
    parse_rules 21 c10_state = Except.error PyError.RuntimeError :=
  ⟨rfl, rfl, rfl, rfl, rfl,
   c10_duplicate_rule_name_errors 20 c10_state ⟨TokenType.LOW_CASE, "r"⟩
     ⟨"r", [AST.NamedProduction "P" [AST.RuleMatch "x"]]⟩ c10_state1 rfl rfl rfl rfl rfl⟩

end GrammarParse
